import Mathlib

/-!
# Verification of the PDF2PNG repository's control logic

Shallow embedding of the two Python modules `app.py` (interactive Streamlit
app) and `pdf_to_png.py` (batch driver).  External collaborators (the
`pdf2image` rasterizer, PyPDF2 parsing, PNG encoding, the ZIP container
encoding, `os.path` helpers and the file system) are out of scope per the
spec and are modelled as abstract parameters: a rasterization outcome is an
`Except String (List Bytes)` (exception message, or the ordered list of
PNG-encoded page byte buffers), a PyPDF2 parse outcome is an `Option Nat`
(page count, or failure), path existence and filename-stem extraction are
function parameters, and a ZIP archive is its ordered list of
`(entry name, entry bytes)` pairs.
-/

set_option autoImplicit false

namespace PDF2PNG

/-- A byte buffer (PNG bytes, PDF bytes, ...) modelled as a list of bytes. -/
abbrev Bytes := List Nat

/-! ## DPI safety policy (`app.py`, the MEMORY FIX block)

`MAX_SAFE_PAGES = 50`, `MAX_SAFE_DPI = 150`;
`if page_count > MAX_SAFE_PAGES and dpi > MAX_SAFE_DPI: dpi_safe = MAX_SAFE_DPI
 else: dpi_safe = dpi`. -/

def MAX_SAFE_PAGES : Nat := 50

def MAX_SAFE_DPI : Nat := 150

/-- `app.py`: the inline computation of `dpi_safe` from the page count and
the requested DPI. -/
def dpi_safe (page_count dpi : Nat) : Nat :=
  if MAX_SAFE_PAGES < page_count ∧ MAX_SAFE_DPI < dpi then MAX_SAFE_DPI else dpi

/-! ## Page-count probe (`app.py`, `get_pdf_page_count`)

`PyPDF2.PdfReader` plus `len(reader.pages)` is the external parser; its
outcome on the given bytes is abstracted as `parse : Option Nat`
(`some n` = the reader reports `n` pages, `none` = any exception). -/

/-- `app.py`: `get_pdf_page_count` returns the parsed page count, or the
sentinel `101` when PyPDF2 raises. -/
def get_pdf_page_count (parse : Option Nat) : Nat :=
  match parse with
  | some n => n
  | none => 101

/-! ## Render pipeline (`app.py`, `perform_conversion`) -/

/-- Python's `f"{n:03d}"`: decimal digits of `n`, zero-padded on the left to
a minimum width of 3. -/
def pad3 (n : Nat) : String :=
  let s := toString n
  if 3 ≤ s.length then s else String.mk (List.replicate (3 - s.length) '0') ++ s

/-- Name of ZIP entry number `n` (1-based): `f"page_{n:03d}.png"`. -/
def zipPageName (n : Nat) : String :=
  "page_" ++ pad3 n ++ ".png"

/-- The `for i, image in enumerate(images)` loop: pair each buffer with a
file name built from its 1-based position (`k` counts the items already
consumed, so the head gets index `k + 1`). -/
def enumFilesFrom (nameOf : Nat → String) (k : Nat) : List Bytes → List (String × Bytes)
  | [] => []
  | b :: rest => (nameOf (k + 1), b) :: enumFilesFrom nameOf (k + 1) rest

/-- The value `perform_conversion` returns: a Python pair whose first
component is `image_bytes_list` (`some` a list) or `None`, and whose second
component is the ZIP archive (its ordered entry list) on success or the
exception text `str(e)` on failure. -/
abbrev ConvReturn := Option (List Bytes) × (List (String × Bytes) ⊕ String)

/-- `app.py`: `perform_conversion`, with the external
`convert_from_bytes(pdf_bytes, dpi=dpi)` call (and the per-page PNG
encoding inside the loop, both covered by the same `try`) abstracted as its
outcome `rr`.  On success the loop appends each page's bytes to
`image_bytes_list` and writes it to the ZIP as `page_{i+1:03d}.png`; on any
exception the function returns `(None, str(e))`. -/
def perform_conversion (rr : Except String (List Bytes)) : ConvReturn :=
  match rr with
  | .ok images => (some images, Sum.inl (enumFilesFrom zipPageName 0 images))
  | .error e => (none, Sum.inr e)

/-- Spec-side predicate: the return value has the success shape
(`isinstance(image_bytes_list, list)` holds and the archive is present). -/
def IsSuccessReturn (r : ConvReturn) : Prop :=
  ∃ pages entries, r = (some pages, Sum.inl entries)

/-- Spec-side predicate: the return value has the failure shape
(`image_bytes_list is None` and the second component is the message). -/
def IsFailureReturn (r : ConvReturn) : Prop :=
  ∃ msg, r = (none, Sum.inr msg)

/-! ## Environment configuration: `OUTPUT_DPI`

Both modules run `int(os.getenv("OUTPUT_DPI", 300))`.  Python's `int(...)`
on a string is modelled by `pyInt`: surrounding spaces are allowed, then an
optional sign and a non-empty run of decimal digits; anything else raises
`ValueError`, modelled as `none`. -/

/-- A non-empty all-digit character list read as a decimal number. -/
def parseDigits (cs : List Char) : Option Nat :=
  if cs = [] then none
  else if cs.all (fun c => c.isDigit) then
    some (cs.foldl (fun acc c => acc * 10 + (c.toNat - 48)) 0)
  else none

/-- Python `int(s)` for a string `s`: `some` the value, or `none` when it
raises `ValueError`. -/
def pyInt (s : String) : Option Int :=
  let cs := ((s.toList.dropWhile (fun c => c = ' ')).reverse.dropWhile
    (fun c => c = ' ')).reverse
  match cs with
  | '-' :: rest => (parseDigits rest).map (fun n => -(n : Int))
  | '+' :: rest => (parseDigits rest).map (fun n => (n : Int))
  | _ => (parseDigits cs).map (fun n => (n : Int))

/-- `int(os.getenv("OUTPUT_DPI", 300))`: when the variable is unset,
`os.getenv` yields the integer default `300` and `int` passes it through;
when set, the string goes through `int` and may raise (`none`). -/
def getenvOutputDpi (env : Option String) : Option Int :=
  match env with
  | none => some 300
  | some s => pyInt s

/-! ## Interactive sidebar default (`app.py`)

```
dpi_options = [150, 300, 600]
try:
    default_dpi = int(os.getenv("OUTPUT_DPI", 300))
    default_index = dpi_options.index(default_dpi)
except ValueError:
    default_index = 1
```
`list.index` raises `ValueError` when the value is absent; both raises land
in the same `except` arm. -/

def dpi_options : List Int := [150, 300, 600]

/-- Python's `list.index`: position of the first occurrence, or `none` for
the `ValueError` raise. -/
def listIndex {α : Type} [DecidableEq α] (a : α) : List α → Option Nat
  | [] => none
  | x :: xs => if x = a then some 0 else (listIndex a xs).map (fun i => i + 1)

/-- `app.py`: the computed `default_index` of the DPI selectbox. -/
def appDefaultIndex (env : Option String) : Nat :=
  match getenvOutputDpi env with
  | none => 1
  | some d =>
    match listIndex d dpi_options with
    | none => 1
    | some i => i

/-- The default DPI the selectbox starts on: `dpi_options[default_index]`. -/
def appDefaultDpi (env : Option String) : Int :=
  dpi_options.getD (appDefaultIndex env) 300

/-! ## Interactive session controller (`app.py`, the `uploaded_file is not
None` branch)

`st.session_state` is a dict; a field is `none` when its key is absent.
One `controllerStep` is one Streamlit rerun with a file present: it
recomputes the page count and `dpi_safe`, renders only when
`"last_file_id" not in st.session_state or st.session_state.last_file_id
!= file_id or st.session_state.last_dpi != dpi_safe`, stores the results,
and on a failure result shows the error and runs `st.session_state.clear()`. -/

structure SessionState where
  last_file_id : Option Nat
  last_dpi : Option Nat
  image_bytes_list : Option (Option (List Bytes))
  zip_data : Option (List (String × Bytes) ⊕ String)
  pdf_filename : Option String
deriving DecidableEq, Repr

/-- The cleared/fresh `st.session_state`: no key is present. -/
def emptySession : SessionState :=
  { last_file_id := none, last_dpi := none, image_bytes_list := none,
    zip_data := none, pdf_filename := none }

/-- Observable outcome of one rerun: the new session state, whether the
render pipeline was invoked, whether the memory-safety warning was shown,
and which terminal message (`st.error` / `st.success` page count) appeared. -/
structure StepOut where
  state : SessionState
  rendered : Bool
  warned : Bool
  errorMsg : Option String
  successPages : Option Nat
deriving DecidableEq, Repr

/-- `app.py`: one rerun of the upload-present branch.  `render` is the
outcome of `convert_from_bytes(pdf_bytes, dpi=·)` for the uploaded bytes as
a function of the DPI argument; `parse` is the PyPDF2 outcome on the same
bytes; `fid` is `uploaded_file.file_id`; `stem` is the filename stem;
`dpi` is the selectbox value. -/
def controllerStep (render : Nat → Except String (List Bytes))
    (parse : Option Nat) (fid : Nat) (stem : String) (dpi : Nat)
    (s : SessionState) : StepOut :=
  if s.last_file_id = none ∨ s.last_file_id ≠ some fid ∨
      s.last_dpi ≠ some (dpi_safe (get_pdf_page_count parse) dpi) then
    match perform_conversion (render (dpi_safe (get_pdf_page_count parse) dpi)) with
    | (some pages, payload) =>
      { state :=
          { last_file_id := some fid,
            last_dpi := some (dpi_safe (get_pdf_page_count parse) dpi),
            image_bytes_list := some (some pages), zip_data := some payload,
            pdf_filename := some stem },
        rendered := true,
        warned := decide (MAX_SAFE_PAGES < get_pdf_page_count parse ∧ MAX_SAFE_DPI < dpi),
        errorMsg := none, successPages := some pages.length }
    | (none, payload) =>
      { state := emptySession, rendered := true,
        warned := decide (MAX_SAFE_PAGES < get_pdf_page_count parse ∧ MAX_SAFE_DPI < dpi),
        errorMsg := match payload with | Sum.inl _ => none | Sum.inr m => some m,
        successPages := none }
  else
    { state := s, rendered := false,
      warned := decide (MAX_SAFE_PAGES < get_pdf_page_count parse ∧ MAX_SAFE_DPI < dpi),
      errorMsg := none, successPages := none }

/-! ## Batch driver (`pdf_to_png.py`, `convert_pdf_to_high_quality_images`)

`os.path.exists` and the stem computation
`os.path.splitext(os.path.basename(path))[0]` are `os` library calls,
abstracted as the parameters `pathExists` and `stemOf`; `os.makedirs`
either succeeds or raises (parameter `mkdirFail`); the
`convert_from_path(pdf_path, dpi=dpi, ...)` call plus the `image.save`
loop, all under one `try`, are abstracted as `render` giving the list of
page buffers or an exception message. -/

structure BatchEnv where
  pdf_file_path : Option String
  output_dpi : Option String
deriving DecidableEq, Repr

/-- Observable outcome of one batch run. `crashed` is an uncaught exception
(the bare `int(...)` call); `written` is the ordered list of
`(file name, bytes)` pages saved to the output directory. -/
structure BatchRun where
  crashed : Bool
  pathErrorReported : Bool
  dirErrorReported : Bool
  renderErrorReported : Bool
  dirCreated : Bool
  dpiUsed : Option Int
  written : List (String × Bytes)
  successCount : Option Nat
deriving DecidableEq, Repr

/-- The run that stops at the uncaught `ValueError` from `int(...)`. -/
def crashedRun : BatchRun :=
  { crashed := true, pathErrorReported := false, dirErrorReported := false,
    renderErrorReported := false, dirCreated := false, dpiUsed := none,
    written := [], successCount := none }

/-- The run that prints the missing-path error and returns. -/
def pathErrorRun : BatchRun :=
  { crashed := false, pathErrorReported := true, dirErrorReported := false,
    renderErrorReported := false, dirCreated := false, dpiUsed := none,
    written := [], successCount := none }

/-- `pdf_to_png.py`: `convert_pdf_to_high_quality_images`.  Steps in source
order: `dpi = int(os.getenv("OUTPUT_DPI", 300))` (may raise, uncaught);
`if not pdf_path or not os.path.exists(pdf_path): ... return`;
`os.makedirs(output_dir, exist_ok=True)` under `try` (on raise: report and
return); then render and save every page as
`f"{pdf_filename}_page_{i+1:03d}.png"`, reporting the final count, with any
exception reported as a conversion error. -/
def convert_pdf_to_high_quality_images (pathExists : String → Bool)
    (stemOf : String → String) (mkdirFail : Option String)
    (render : Int → Except String (List Bytes)) (env : BatchEnv) : BatchRun :=
  match getenvOutputDpi env.output_dpi with
  | none => crashedRun
  | some dpi =>
    match env.pdf_file_path with
    | none => pathErrorRun
    | some p =>
      if p = "" ∨ pathExists p = false then pathErrorRun
      else
        let stem := stemOf p
        match mkdirFail with
        | some _ =>
          { crashed := false, pathErrorReported := false,
            dirErrorReported := true, renderErrorReported := false,
            dirCreated := false, dpiUsed := none, written := [],
            successCount := none }
        | none =>
          match render dpi with
          | .error _ =>
            { crashed := false, pathErrorReported := false,
              dirErrorReported := false, renderErrorReported := true,
              dirCreated := true, dpiUsed := some dpi, written := [],
              successCount := none }
          | .ok images =>
            { crashed := false, pathErrorReported := false,
              dirErrorReported := false, renderErrorReported := false,
              dirCreated := true, dpiUsed := some dpi,
              written := enumFilesFrom
                (fun n => stem ++ "_page_" ++ pad3 n ++ ".png") 0 images,
              successCount := some images.length }

/-! ## Basic lemmas about the enumeration loop -/

theorem enumFilesFrom_length (nameOf : Nat → String) (k : Nat) (l : List Bytes) :
    (enumFilesFrom nameOf k l).length = l.length := by
  induction l generalizing k with
  | nil => rfl
  | cons b rest ih => simp [enumFilesFrom, ih]

theorem enumFilesFrom_getElem? (nameOf : Nat → String) (k : Nat) (l : List Bytes) (i : Nat) :
    (enumFilesFrom nameOf k l)[i]? = (l[i]?).map (fun b => (nameOf (k + i + 1), b)) := by
  induction l generalizing k i with
  | nil => simp [enumFilesFrom]
  | cons b rest ih =>
    cases i with
    | zero => simp [enumFilesFrom]
    | succ j =>
      have harith : k + 1 + j = k + (j + 1) := by omega
      simp [enumFilesFrom, ih, harith]

/-! ## Claim C1: DPI safety policy -/

/-- C1: for every non-negative page count `p` and every requested DPI `d`,
the DPI safety policy returns `150` when `p > 50` and `d > 150`, and
returns `d` unchanged in every other case. -/
theorem C1_dpi_safety_policy (p d : Nat) :
    (50 < p ∧ 150 < d → dpi_safe p d = 150) ∧
    (¬(50 < p ∧ 150 < d) → dpi_safe p d = d) := by
  constructor <;> intro h <;>
    simp [dpi_safe, MAX_SAFE_PAGES, MAX_SAFE_DPI, h]

theorem C1_dpi_safety_policy_witness :
    dpi_safe 51 300 = 150 ∧ dpi_safe 5 600 = 600 :=
  ⟨(C1_dpi_safety_policy 51 300).1 (by decide),
   (C1_dpi_safety_policy 5 600).2 (by decide)⟩

/-! ## Claim C3: page-count probe fallback -/

/-- C3: the probe returns a page count (a `Nat`, hence non-negative; on a
successful parse it is exactly the parsed count), and on any parse failure
it returns exactly the sentinel `101` instead of raising, so that the
safety cap is triggered for any requested DPI above `150`. -/
theorem C3_page_count_fallback (parse : Option Nat) (d : Nat) :
    (∀ n, parse = some n → get_pdf_page_count parse = n) ∧
    (parse = none → get_pdf_page_count parse = 101) ∧
    (150 < d → dpi_safe (get_pdf_page_count none) d = 150) := by
  refine ⟨fun n hn => ?_, fun hn => ?_, fun hd => ?_⟩
  · rw [hn]; rfl
  · rw [hn]; rfl
  · simp [get_pdf_page_count, dpi_safe, MAX_SAFE_PAGES, MAX_SAFE_DPI, hd]

theorem C3_page_count_fallback_witness :
    get_pdf_page_count (some 7) = 7 ∧ get_pdf_page_count none = 101 ∧
    dpi_safe (get_pdf_page_count none) 300 = 150 :=
  ⟨(C3_page_count_fallback (some 7) 300).1 7 rfl,
   (C3_page_count_fallback none 300).2.1 rfl,
   (C3_page_count_fallback none 300).2.2 (by decide)⟩

/-! ## Claim C5: render failures become data -/

/-- C5: every outcome of the decode/rasterize call — including any
exception — is converted by `perform_conversion` into a return value that
is either a success (page list plus archive) or a failure (message), never
both, and an exception's text is carried in the failure; no exception
shape exists in the return type, so nothing propagates raw. -/
theorem C5_failure_converted_to_data (rr : Except String (List Bytes)) :
    (IsSuccessReturn (perform_conversion rr) ∨
      IsFailureReturn (perform_conversion rr)) ∧
    ¬(IsSuccessReturn (perform_conversion rr) ∧
      IsFailureReturn (perform_conversion rr)) ∧
    (∀ e, rr = Except.error e → perform_conversion rr = (none, Sum.inr e)) := by
  cases rr with
  | ok images =>
    refine ⟨Or.inl ⟨images, enumFilesFrom zipPageName 0 images, rfl⟩, ?_, ?_⟩
    · rintro ⟨-, msg, hmsg⟩
      simp [perform_conversion] at hmsg
    · intro e he
      cases he
  | error e =>
    refine ⟨Or.inr ⟨e, rfl⟩, ?_, ?_⟩
    · rintro ⟨⟨pages, entries, hpe⟩, -⟩
      simp [perform_conversion] at hpe
    · intro e' he'
      cases he'
      rfl

theorem C5_failure_converted_to_data_witness :
    perform_conversion (Except.error "boom") = (none, Sum.inr "boom") :=
  (C5_failure_converted_to_data (Except.error "boom")).2.2 "boom" rfl

/-! ## Claim C2: page list and ZIP archive match -/

/-- C2: whenever the rasterizer yields an `N`-entry page sequence, the
pipeline returns exactly that sequence as its page list (same entries,
document order) together with an archive of exactly `N` entries, entry `i`
(0-based) named `page_{i+1:03d}.png` with bytes identical to page `i`. -/
theorem C2_pages_match_zip (images : List Bytes) :
    perform_conversion (Except.ok images) =
      (some images, Sum.inl (enumFilesFrom zipPageName 0 images)) ∧
    (enumFilesFrom zipPageName 0 images).length = images.length ∧
    ∀ i (h : i < images.length),
      (enumFilesFrom zipPageName 0 images)[i]? =
        some (zipPageName (i + 1), images.get ⟨i, h⟩) := by
  refine ⟨rfl, enumFilesFrom_length zipPageName 0 images, fun i h => ?_⟩
  rw [enumFilesFrom_getElem?]
  simp [List.getElem?_eq_getElem h]

theorem C2_pages_match_zip_witness :
    zipPageName 1 = "page_001.png" ∧ zipPageName 2 = "page_002.png" ∧
    (enumFilesFrom zipPageName 0 [[10], [20]])[1]? =
      some (zipPageName 2, [20]) :=
  ⟨by decide, by decide, (C2_pages_match_zip [[10], [20]]).2.2 1 (by decide)⟩

/-! ## Controller lemmas -/

theorem controllerStep_rendered_iff (render : Nat → Except String (List Bytes))
    (parse : Option Nat) (fid : Nat) (stem : String) (dpi : Nat)
    (s : SessionState) :
    (controllerStep render parse fid stem dpi s).rendered = false ↔
      (s.last_file_id = some fid ∧
        s.last_dpi = some (dpi_safe (get_pdf_page_count parse) dpi)) := by
  unfold controllerStep
  by_cases hc : (s.last_file_id = none ∨ s.last_file_id ≠ some fid ∨
      s.last_dpi ≠ some (dpi_safe (get_pdf_page_count parse) dpi))
  · rw [if_pos hc]
    have hne : ¬(s.last_file_id = some fid ∧
        s.last_dpi = some (dpi_safe (get_pdf_page_count parse) dpi)) := by
      rcases hc with h | h | h
      · rintro ⟨h1, -⟩; rw [h1] at h; cases h
      · exact fun hp => h hp.1
      · exact fun hp => h hp.2
    cases hr : render (dpi_safe (get_pdf_page_count parse) dpi) with
    | ok imgs => simp [perform_conversion, hne]
    | error e => simp [perform_conversion, hne]
  · rw [if_neg hc]
    push_neg at hc
    simp [hc.2.1, hc.2.2]

theorem controllerStep_state_records_pair
    (render : Nat → Except String (List Bytes)) (parse : Option Nat)
    (fid : Nat) (stem : String) (dpi : Nat) (s : SessionState)
    (imgs : List Bytes)
    (hr : render (dpi_safe (get_pdf_page_count parse) dpi) = Except.ok imgs) :
    (controllerStep render parse fid stem dpi s).state.last_file_id = some fid ∧
    (controllerStep render parse fid stem dpi s).state.last_dpi =
      some (dpi_safe (get_pdf_page_count parse) dpi) := by
  unfold controllerStep
  by_cases hc : (s.last_file_id = none ∨ s.last_file_id ≠ some fid ∨
      s.last_dpi ≠ some (dpi_safe (get_pdf_page_count parse) dpi))
  · rw [if_pos hc]
    simp [hr, perform_conversion]
  · rw [if_neg hc]
    push_neg at hc
    exact ⟨hc.2.1, hc.2.2⟩

/-! ## Claim C4: render gated by the session cache -/

/-- C4: one rerun of the session controller skips the render pipeline
exactly when the recorded pair (`last_file_id`, `last_dpi`) equals the
current pair (file identity, effective DPI); and after a rerun whose
effective-DPI render succeeds, another rerun with the same document and
DPI selection (an enlarge/preview interaction changes neither) never
invokes the pipeline again. -/
theorem C4_render_gated_by_cache (render : Nat → Except String (List Bytes))
    (parse : Option Nat) (fid : Nat) (stem : String) (dpi : Nat)
    (s : SessionState) :
    ((controllerStep render parse fid stem dpi s).rendered = false ↔
      (s.last_file_id = some fid ∧
        s.last_dpi = some (dpi_safe (get_pdf_page_count parse) dpi))) ∧
    ∀ imgs, render (dpi_safe (get_pdf_page_count parse) dpi) = Except.ok imgs →
      (controllerStep render parse fid stem dpi
        (controllerStep render parse fid stem dpi s).state).rendered = false := by
  refine ⟨controllerStep_rendered_iff render parse fid stem dpi s,
    fun imgs hr => ?_⟩
  rw [controllerStep_rendered_iff]
  exact controllerStep_state_records_pair render parse fid stem dpi s imgs hr

theorem C4_render_gated_by_cache_witness :
    (controllerStep (fun _ => Except.ok [[1]]) (some 3) 7 "doc" 300
      (controllerStep (fun _ => Except.ok [[1]]) (some 3) 7 "doc" 300
        emptySession).state).rendered = false :=
  (C4_render_gated_by_cache (fun _ => Except.ok [[1]]) (some 3) 7 "doc" 300
    emptySession).2 [[1]] rfl

/-! ## Claim C6: a failed render clears the session -/

/-- C6: when the controller does invoke the pipeline and the render fails,
the failure message is surfaced (`st.error`) and the whole session state is
cleared — cached images, ZIP data, last file identity, last DPI and stem
are all gone, i.e. the state is the empty session. -/
theorem C6_failure_clears_session (render : Nat → Except String (List Bytes))
    (parse : Option Nat) (fid : Nat) (stem : String) (dpi : Nat)
    (s : SessionState) (msg : String)
    (hr : render (dpi_safe (get_pdf_page_count parse) dpi) = Except.error msg)
    (hdo : s.last_file_id = none ∨ s.last_file_id ≠ some fid ∨
      s.last_dpi ≠ some (dpi_safe (get_pdf_page_count parse) dpi)) :
    (controllerStep render parse fid stem dpi s).rendered = true ∧
    (controllerStep render parse fid stem dpi s).errorMsg = some msg ∧
    (controllerStep render parse fid stem dpi s).state = emptySession := by
  unfold controllerStep
  rw [if_pos hdo]
  simp [hr, perform_conversion]

theorem C6_failure_clears_session_witness :
    (controllerStep (fun _ => Except.error "boom") (some 3) 7 "doc" 300
      emptySession).rendered = true ∧
    (controllerStep (fun _ => Except.error "boom") (some 3) 7 "doc" 300
      emptySession).errorMsg = some "boom" ∧
    (controllerStep (fun _ => Except.error "boom") (some 3) 7 "doc" 300
      emptySession).state = emptySession :=
  C6_failure_clears_session (fun _ => Except.error "boom") (some 3) 7 "doc"
    300 emptySession "boom" rfl (Or.inl rfl)

/-! ## Claim C10: a zero-page document is a success -/

/-- C10: a decode that yields zero pages produces a success return — an
empty page list and an archive with zero entries — and a controller rerun
on a fresh session treats it as a successful conversion of 0 pages (no
error, state populated, no clearing). -/
theorem C10_empty_document_is_success
    (render : Nat → Except String (List Bytes)) (parse : Option Nat)
    (fid : Nat) (stem : String) (dpi : Nat)
    (hr : render (dpi_safe (get_pdf_page_count parse) dpi) = Except.ok []) :
    perform_conversion (Except.ok ([] : List Bytes)) = (some [], Sum.inl []) ∧
    (controllerStep render parse fid stem dpi emptySession).rendered = true ∧
    (controllerStep render parse fid stem dpi emptySession).successPages =
      some 0 ∧
    (controllerStep render parse fid stem dpi emptySession).errorMsg = none ∧
    (controllerStep render parse fid stem dpi
      emptySession).state.image_bytes_list = some (some []) ∧
    (controllerStep render parse fid stem dpi emptySession).state.zip_data =
      some (Sum.inl []) := by
  have hdo : emptySession.last_file_id = none ∨
      emptySession.last_file_id ≠ some fid ∨
      emptySession.last_dpi ≠
        some (dpi_safe (get_pdf_page_count parse) dpi) := Or.inl rfl
  refine ⟨rfl, ?_⟩
  unfold controllerStep
  rw [if_pos hdo]
  simp [hr, perform_conversion, enumFilesFrom]

theorem C10_empty_document_is_success_witness :
    perform_conversion (Except.ok ([] : List Bytes)) = (some [], Sum.inl []) ∧
    (controllerStep (fun _ => Except.ok []) (some 0) 7 "doc" 300
      emptySession).rendered = true ∧
    (controllerStep (fun _ => Except.ok []) (some 0) 7 "doc" 300
      emptySession).successPages = some 0 ∧
    (controllerStep (fun _ => Except.ok []) (some 0) 7 "doc" 300
      emptySession).errorMsg = none ∧
    (controllerStep (fun _ => Except.ok []) (some 0) 7 "doc" 300
      emptySession).state.image_bytes_list = some (some []) ∧
    (controllerStep (fun _ => Except.ok []) (some 0) 7 "doc" 300
      emptySession).state.zip_data = some (Sum.inl []) :=
  C10_empty_document_is_success (fun _ => Except.ok []) (some 0) 7 "doc" 300
    rfl

/-! ## Claim C7: batch mode renders at the configured DPI -/

/-- C7: in batch mode no safety cap exists — the render is invoked at
exactly the configured DPI whatever it is — and on success every page is
written in document order as `{stem}_page_{i+1:03d}.png` with a 1-based
3-digit zero-padded index, one file per page. -/
theorem C7_batch_configured_dpi_and_names (pathExists : String → Bool)
    (stemOf : String → String) (render : Int → Except String (List Bytes))
    (env : BatchEnv) (dpi : Int) (images : List Bytes) (p : String)
    (hd : getenvOutputDpi env.output_dpi = some dpi)
    (hp : env.pdf_file_path = some p) (hne : ¬ p = "")
    (hex : pathExists p = true)
    (hr : render dpi = Except.ok images) :
    (convert_pdf_to_high_quality_images pathExists stemOf none render
      env).crashed = false ∧
    (convert_pdf_to_high_quality_images pathExists stemOf none render
      env).dirCreated = true ∧
    (convert_pdf_to_high_quality_images pathExists stemOf none render
      env).dpiUsed = some dpi ∧
    (convert_pdf_to_high_quality_images pathExists stemOf none render
      env).written.length = images.length ∧
    (∀ i (h : i < images.length),
      (convert_pdf_to_high_quality_images pathExists stemOf none render
        env).written[i]? =
        some (stemOf p ++ "_page_" ++ pad3 (i + 1) ++ ".png",
          images.get ⟨i, h⟩)) ∧
    (convert_pdf_to_high_quality_images pathExists stemOf none render
      env).successCount = some images.length := by
  simp only [convert_pdf_to_high_quality_images, hd, hp]
  rw [if_neg (by simp [hne, hex])]
  simp only [hr]
  refine ⟨trivial, trivial, trivial, enumFilesFrom_length _ 0 images,
    fun i h => ?_, trivial⟩
  rw [enumFilesFrom_getElem?]
  simp [List.getElem?_eq_getElem h]

theorem C7_batch_configured_dpi_and_names_witness :
    ("doc" ++ "_page_" ++ pad3 2 ++ ".png") = "doc_page_002.png" ∧
    (convert_pdf_to_high_quality_images (fun _ => true) (fun _ => "doc") none
      (fun _ => Except.ok [[1], [2]])
      { pdf_file_path := some "doc.pdf",
        output_dpi := some "600" }).dpiUsed = some 600 ∧
    (convert_pdf_to_high_quality_images (fun _ => true) (fun _ => "doc") none
      (fun _ => Except.ok [[1], [2]])
      { pdf_file_path := some "doc.pdf",
        output_dpi := some "600" }).written[1]? =
      some ("doc" ++ "_page_" ++ pad3 2 ++ ".png", [2]) := by
  refine ⟨by decide, ?_, ?_⟩
  · exact (C7_batch_configured_dpi_and_names (fun _ => true) (fun _ => "doc")
      (fun _ => Except.ok [[1], [2]])
      { pdf_file_path := some "doc.pdf", output_dpi := some "600" }
      600 [[1], [2]] "doc.pdf" (by decide) rfl (by decide) rfl rfl).2.2.1
  · exact (C7_batch_configured_dpi_and_names (fun _ => true) (fun _ => "doc")
      (fun _ => Except.ok [[1], [2]])
      { pdf_file_path := some "doc.pdf", output_dpi := some "600" }
      600 [[1], [2]] "doc.pdf" (by decide) rfl (by decide) rfl
      rfl).2.2.2.2.1 1 (by decide)

/-! ## Claim C8: batch mode validates the path first -/

/-- C8: when the configured PDF path is absent (`None` or empty) or does
not exist, the batch driver reports the path error and returns before
creating the output directory or writing anything, without crashing. -/
theorem C8_batch_missing_path (pathExists : String → Bool)
    (stemOf : String → String) (mkdirFail : Option String)
    (render : Int → Except String (List Bytes)) (env : BatchEnv) (dpi : Int)
    (hd : getenvOutputDpi env.output_dpi = some dpi)
    (hbad : env.pdf_file_path = none ∨
      ∃ p, env.pdf_file_path = some p ∧ (p = "" ∨ pathExists p = false)) :
    convert_pdf_to_high_quality_images pathExists stemOf mkdirFail render
      env = pathErrorRun ∧
    pathErrorRun.pathErrorReported = true ∧ pathErrorRun.dirCreated = false ∧
    pathErrorRun.written = [] ∧ pathErrorRun.crashed = false := by
  refine ⟨?_, rfl, rfl, rfl, rfl⟩
  simp only [convert_pdf_to_high_quality_images, hd]
  rcases hbad with hnone | ⟨p, hp, hbadp⟩
  · simp only [hnone]
  · simp only [hp]
    rw [if_pos hbadp]

theorem C8_batch_missing_path_witness :
    convert_pdf_to_high_quality_images (fun _ => false) (fun _ => "doc") none
      (fun _ => Except.ok [[1]])
      { pdf_file_path := none, output_dpi := none } = pathErrorRun :=
  (C8_batch_missing_path (fun _ => false) (fun _ => "doc") none
    (fun _ => Except.ok [[1]]) { pdf_file_path := none, output_dpi := none }
    300 rfl (Or.inl rfl)).1

/-! ## Claim C9: default DPI configuration

The claim says both modes fall back to `300` on an absent or invalid
`OUTPUT_DPI` and that an invalid value never makes either mode fail.  The
interactive app does exactly that (`try`/`except ValueError` around `int`
and `list.index`), but the batch driver runs a bare
`int(os.getenv("OUTPUT_DPI", 300))`: an unparseable value raises an
uncaught `ValueError` (the run crashes), and a parseable value outside
`{150, 300, 600}` is used as-is with no fallback. -/

/-- C9 counterexample: with `OUTPUT_DPI = "abc"` the batch run crashes on
the uncaught `ValueError`, and with `OUTPUT_DPI = "999"` the batch run
uses 999 DPI rather than falling back to 300 — refuting the claim for
batch mode at these concrete inputs. -/
theorem C9_counterexample_batch_env :
    (convert_pdf_to_high_quality_images (fun _ => true) (fun _ => "doc") none
      (fun _ => Except.ok [])
      { pdf_file_path := some "doc.pdf",
        output_dpi := some "abc" }).crashed = true ∧
    (convert_pdf_to_high_quality_images (fun _ => true) (fun _ => "doc") none
      (fun _ => Except.ok [])
      { pdf_file_path := some "doc.pdf",
        output_dpi := some "999" }).dpiUsed = some 999 ∧
    ¬ (999 : Int) = 300 := by
  decide

/-- C9 (amended): in interactive mode the default DPI is the
environment-provided value when it parses and lies in {150, 300, 600},
and falls back to 300 when the value is absent, unparseable, or outside
that set, never failing; in batch mode the DPI falls back to 300 only when
the value is absent — an unparseable value raises an uncaught error
(the run crashes) and a parseable value is used exactly as configured,
with no membership check. -/
theorem C9_amended_default_dpi (s : String) :
    appDefaultDpi none = 300 ∧
    (pyInt s = none → appDefaultDpi (some s) = 300) ∧
    (∀ d : Int, pyInt s = some d → d ∉ dpi_options →
      appDefaultDpi (some s) = 300) ∧
    (∀ d : Int, pyInt s = some d → d ∈ dpi_options →
      appDefaultDpi (some s) = d) ∧
    getenvOutputDpi none = some 300 ∧
    (∀ (pathExists : String → Bool) (stemOf : String → String)
      (mkdirFail : Option String)
      (render : Int → Except String (List Bytes)) (env : BatchEnv),
      env.output_dpi = some s → pyInt s = none →
      (convert_pdf_to_high_quality_images pathExists stemOf mkdirFail render
        env).crashed = true) ∧
    (∀ d : Int, pyInt s = some d → getenvOutputDpi (some s) = some d) := by
  refine ⟨by decide, fun h => ?_, fun d h hmem => ?_, fun d h hmem => ?_,
    rfl, fun pathExists stemOf mkdirFail render env henv h => ?_, fun d h => h⟩
  · simp [appDefaultDpi, appDefaultIndex, getenvOutputDpi, h, dpi_options]
  · have h150 : ¬((150 : Int) = d) := by
      intro he; exact hmem (by simp [dpi_options, he.symm])
    have h300 : ¬((300 : Int) = d) := by
      intro he; exact hmem (by simp [dpi_options, he.symm])
    have h600 : ¬((600 : Int) = d) := by
      intro he; exact hmem (by simp [dpi_options, he.symm])
    simp [appDefaultDpi, appDefaultIndex, getenvOutputDpi, h, dpi_options,
      listIndex, h150, h300, h600]
  · simp only [dpi_options, List.mem_cons, List.not_mem_nil, or_false] at hmem
    rcases hmem with hd | hd | hd <;> subst hd <;>
      simp [appDefaultDpi, appDefaultIndex, getenvOutputDpi, h, dpi_options,
        listIndex]
  · simp only [convert_pdf_to_high_quality_images, henv, getenvOutputDpi, h]
    rfl

theorem C9_amended_default_dpi_witness :
    appDefaultDpi (some "abc") = 300 ∧
    appDefaultDpi (some "999") = 300 ∧
    appDefaultDpi (some "150") = 150 ∧
    (convert_pdf_to_high_quality_images (fun _ => true) (fun _ => "doc") none
      (fun _ => Except.ok [])
      { pdf_file_path := some "doc.pdf",
        output_dpi := some "abc" }).crashed = true :=
  ⟨(C9_amended_default_dpi "abc").2.1 (by decide),
   (C9_amended_default_dpi "999").2.2.1 999 (by decide) (by decide),
   (C9_amended_default_dpi "150").2.2.2.1 150 (by decide) (by decide),
   (C9_amended_default_dpi "abc").2.2.2.2.2.1 (fun _ => true) (fun _ => "doc")
     none (fun _ => Except.ok [])
     { pdf_file_path := some "doc.pdf", output_dpi := some "abc" } rfl
     (by decide)⟩

end PDF2PNG

